import Mathlib

/-!
Verification development for the EVE-MCP console driver.

The definitions below are a shallow embedding of the interactive console
driver in `src/server.py` (class `IOSConsole` and the tool
`eve_configure_ospf_triangle`) and of the endpoint resolution in
`src/eve_api.py` (`EveClient.get_console_endpoint`).

Modelling conventions:
- Wall-clock bounded loops (`while time.time() < end`) become fuel-indexed
  structural recursion; one unit of fuel is one iteration of the source loop
  (one `select` poll for `_recv_nonblock`, one `_recv_nonblock` slice for the
  `read_until_*` loops).
- The socket is modelled as `Option Unit` (present or absent) plus an event
  stream `Nat → PollEvent` describing what each successive poll observes:
  no data ready, a chunk of bytes (the empty chunk encodes a peer close,
  exactly as `recv` returning `b""` does), or a read exception
  (`BlockingIOError` or any other exception, both of which the source
  swallows with `break`).
- Python strings are Lean `String`s; helpers such as `rstrip` are
  re-implemented structurally over `List Char` so that all definitions
  evaluate by kernel reduction.
- Fallible operations (`send_raw` raising `RuntimeError`) return
  `Except String _`.
-/

namespace EveMcp

/-- Python whitespace as used by `str.strip` / `str.rstrip` and by the
regex class `\s` (space, tab, newline, carriage return, vertical tab,
form feed). -/
def isPyWs (c : Char) : Bool :=
  c = ' ' || c = '\t' || c = '\n' || c = '\r' || c = '\x0b' || c = '\x0c'

/-- Embedding of Python `str.rstrip()` (strip trailing whitespace). -/
def pyRstrip (s : String) : String :=
  String.mk (((s.toList.reverse).dropWhile isPyWs).reverse)

/-- Embedding of Python `str.strip()` (strip both ends). -/
def pyStrip (s : String) : String :=
  String.mk ((((s.toList.dropWhile isPyWs).reverse).dropWhile isPyWs).reverse)

/-- Embedding of Python `str.isdigit()` restricted to ASCII digits:
nonempty and all digits. -/
def pyIsDigit (s : String) : Bool :=
  !s.toList.isEmpty && s.toList.all Char.isDigit

/-- Decimal value of a list of ASCII digit characters (accumulator form);
embeds Python `int(...)` on a digit string. -/
def digitsToNatAux (acc : Nat) : List Char → Nat
  | [] => acc
  | c :: cs => digitsToNatAux (acc * 10 + (c.toNat - 48)) cs

def digitsToNat (cs : List Char) : Nat := digitsToNatAux 0 cs

/-- Embedding of the Python slice `s[-n:]`: the last `n` characters of `s`
(all of `s` when it is shorter). -/
def pyTail (n : Nat) (s : String) : String :=
  String.mk ((s.toList.reverse.take n).reverse)

/-- Does the character list `s` start with the pattern `p`? -/
def startsWithL : List Char → List Char → Bool
  | _, [] => true
  | [], _ :: _ => false
  | a :: s, b :: p => a = b && startsWithL s p

/-- Remainder of `s` after the first occurrence of the (nonempty) pattern
`pat`, or `none` when `pat` does not occur. -/
def afterFirst : List Char → List Char → Option (List Char)
  | [], _ => none
  | a :: rest, pat =>
    if startsWithL (a :: rest) pat then some ((a :: rest).drop pat.length)
    else afterFirst rest pat

/-- Substring containment test (embeds Python `pat in s` for strings). -/
def containsSub (s pat : List Char) : Bool :=
  (afterFirst s pat).isSome

/-- Embedding of Python `c in s` for a one-character needle. -/
def pyInStr (c : Char) (s : String) : Bool :=
  s.toList.contains c

/-! ## ByteStreamReader: `IOSConsole._recv_nonblock` (src/server.py 69-89)

One unit of fuel is one iteration of the `while time.time() < end` loop,
i.e. one `select.select(..., 0.1)` poll. The event stream says what poll
number `i` observes. -/

/-- Outcome of one `select` + `recv` poll:
`notReady` = `select` reported nothing readable (the source `continue`s);
`chunk d` = `recv(4096)` returned the bytes `d` (the empty chunk is the
peer-close signal, `if not chunk: break`);
`errRead` = `recv` raised (`BlockingIOError` or any exception; both
`break`). -/
inductive PollEvent where
  | notReady
  | chunk (data : String)
  | errRead
deriving DecidableEq, Repr

/-- The `recv` buffer size used by the source (`self.sock.recv(4096)`). -/
def RECV_SIZE : Nat := 4096

/-- The accumulation loop of `_recv_nonblock`: polls event `i`, then
`i+1`, ... while fuel lasts, appending received chunks to `buf`;
stops on peer close, on a read error, or on a chunk shorter than
`RECV_SIZE` (the short-read heuristic `if len(chunk) < 4096: break`). -/
def recvLoop (events : Nat → PollEvent) : Nat → Nat → String → String
  | 0, _, buf => buf
  | fuel+1, i, buf =>
    match events i with
    | .notReady => recvLoop events fuel (i+1) buf
    | .errRead => buf
    | .chunk d =>
      if d = "" then buf
      else if d.length < RECV_SIZE then buf ++ d
      else recvLoop events fuel (i+1) (buf ++ d)

/-- Number of `select` polls the loop performs (mirrors `recvLoop`). -/
def recvPolls (events : Nat → PollEvent) : Nat → Nat → Nat
  | 0, _ => 0
  | fuel+1, i =>
    match events i with
    | .notReady => 1 + recvPolls events fuel (i+1)
    | .errRead => 1
    | .chunk d =>
      if d = "" then 1
      else if d.length < RECV_SIZE then 1
      else 1 + recvPolls events fuel (i+1)

/-- The chunks the loop actually reads and keeps (mirrors `recvLoop`). -/
def recvConsumed (events : Nat → PollEvent) : Nat → Nat → List String
  | 0, _ => []
  | fuel+1, i =>
    match events i with
    | .notReady => recvConsumed events fuel (i+1)
    | .errRead => []
    | .chunk d =>
      if d = "" then []
      else if d.length < RECV_SIZE then [d]
      else d :: recvConsumed events fuel (i+1)

/-- Concatenation of a list of strings. -/
def strConcat : List String → String
  | [] => ""
  | s :: l => s ++ strConcat l

/-- `IOSConsole._recv_nonblock`: returns `""` immediately when there is no
socket (`if not self.sock: return ""`), otherwise runs the poll loop with
an empty buffer. -/
def _recv_nonblock (sock : Option Unit) (events : Nat → PollEvent)
    (fuel : Nat) : String :=
  match sock with
  | none => ""
  | some _ => recvLoop events fuel 0 ""

/-! ## PromptMatcher and the bounded waits (src/server.py 45, 107-125) -/

/-- Embedding of `re.search(r"(>|#)\s*$", s)` (the class constant
`ANY_PROMPT_RE`): true iff after discarding trailing whitespace the buffer
ends in an unprivileged or privileged prompt character. -/
def promptMatch (s : String) : Bool :=
  match (s.toList.reverse).dropWhile isPyWs with
  | [] => false
  | c :: _ => c = '>' || c = '#'

/-- PromptMatcher for a pattern set: does any pattern match the buffer?
Patterns are embedded as predicates on the accumulated buffer (the source
compiles each to a case-insensitive regex and calls `rg.search(buf)`). -/
def anyMatch (ps : List (String → Bool)) (s : String) : Bool :=
  ps.any (fun p => p s)

/-- Shared loop shape of `read_until_any` and `read_until_prompt`:
append the next receive slice to the buffer, return the buffer as soon as
the predicate matches it, and return the accumulated buffer unchanged when
the time budget (`fuel`) runs out. -/
def readAnyLoop (p : String → Bool) (slices : Nat → String) :
    Nat → Nat → String → String
  | 0, _, buf => buf
  | fuel+1, i, buf =>
    let b := buf ++ slices i
    if p b then b else readAnyLoop p slices fuel (i+1) b

/-- The buffer obtained from `buf` by appending `k` consecutive slices
starting at index `i`; used to state that the bounded waits return exactly
the accumulated text, nothing discarded. -/
def sliceAccum (slices : Nat → String) : Nat → String → Nat → String
  | _, buf, 0 => buf
  | i, buf, k+1 => sliceAccum slices (i+1) (buf ++ slices i) k

/-- `IOSConsole.read_until_any`: slice `i` of the wait is the result of the
`i`-th inner `_recv_nonblock(0.7)` call, whose polls are described by
`evts i`. -/
def read_until_any (sock : Option Unit) (evts : Nat → Nat → PollEvent)
    (rfuel : Nat) (ps : List (String → Bool)) (fuel : Nat) : String :=
  readAnyLoop (anyMatch ps) (fun i => _recv_nonblock sock (evts i) rfuel)
    fuel 0 ""

/-- `IOSConsole.read_until_prompt`: same loop with the fixed
`ANY_PROMPT_RE` pattern. -/
def read_until_prompt (sock : Option Unit) (evts : Nat → Nat → PollEvent)
    (rfuel fuel : Nat) : String :=
  readAnyLoop promptMatch (fun i => _recv_nonblock sock (evts i) rfuel)
    fuel 0 ""

/-- The accumulation loop of `IOSConsole._drain` (src/server.py 91-96):
keeps appending `_recv_nonblock(0.2)` results for the time budget. -/
def drainLoop (slices : Nat → String) : Nat → Nat → String → String
  | 0, _, out => out
  | fuel+1, i, out => drainLoop slices fuel (i+1) (out ++ slices i)

/-- `IOSConsole._drain`. -/
def _drain (sock : Option Unit) (evts : Nat → Nat → PollEvent)
    (rfuel fuel : Nat) : String :=
  drainLoop (fun i => _recv_nonblock sock (evts i) rfuel) fuel 0 ""

/-! ## Sending (src/server.py 98-105, 201-217) -/

/-- `IOSConsole.send_raw`: raises `RuntimeError("Console not connected")`
when there is no socket, otherwise writes the bytes; the embedded result
carries the string written so that callers can be stated in terms of what
was sent. -/
def send_raw (sock : Option Unit) (s : String) : Except String String :=
  match sock with
  | none => .error "Console not connected"
  | some _ => .ok s

/-- `IOSConsole.send_and_collect`: send, then one bounded receive. -/
def send_and_collect (sock : Option Unit) (evts : Nat → PollEvent)
    (rfuel : Nat) (s : String) : Except String String :=
  match send_raw sock s with
  | .error e => .error e
  | .ok _ => .ok (_recv_nonblock sock evts rfuel)

/-- Result of `run_cmd`: the line actually written to the socket and the
text returned to the caller. -/
structure CmdResult where
  sent : String
  out : String
deriving DecidableEq, Repr

/-- `IOSConsole.run_cmd` (src/server.py 201-204): drain stale pending
output (the drain result is discarded), send `cmd.rstrip() + "\r"`, then
wait for a prompt. The model separates the event streams of the two
phases: `dEvts` feeds the pre-send drain (the stale bytes pending on the
socket, which the drain window consumes), `pEvts` feeds the post-send
prompt wait. -/
def run_command (sock : Option Unit) (dEvts pEvts : Nat → Nat → PollEvent)
    (dfuel drf pfuel prf : Nat) (cmd : String) : Except String CmdResult :=
  let _stale := _drain sock dEvts drf dfuel
  match send_raw sock (pyRstrip cmd ++ "\r") with
  | .error e => .error e
  | .ok sent =>
    .ok { sent := sent, out := read_until_prompt sock pEvts prf pfuel }

/-! ## ConfigPusher: `IOSConsole.push_config` (src/server.py 206-217) -/

/-- One observable step of `push_config`: a `run_cmd` stage with its
`max_wait` (milliseconds), or one configuration line sent with the
inter-line pacing sleep (milliseconds). -/
inductive PushStep where
  | cmd (sent : String) (maxWaitMs : Nat)
  | line (sent : String) (pauseMs : Nat)
deriving DecidableEq, Repr

structure PushResult where
  steps : List PushStep
  transcript : String
deriving DecidableEq, Repr

/-- `max_wait=20.0` on `run_cmd("conf t", ...)`. -/
def CONF_T_MAX_WAIT_MS : Nat := 20000
/-- `max_wait=20.0` on `run_cmd("end", ...)`. -/
def END_MAX_WAIT_MS : Nat := 20000
/-- `max_wait=60.0` on `run_cmd("wr mem", ...)`. -/
def WR_MEM_MAX_WAIT_MS : Nat := 60000
/-- `time.sleep(0.15)` after each configuration line. -/
def LINE_PAUSE_MS : Nat := 150

/-- The per-line loop of `push_config`: send `line.rstrip() + "\r"`, pause,
capture one bounded receive; `lineEvts i` describes the polls of the
capture after line `i`. -/
def pushLines (sock : Option Unit) (lineEvts : Nat → Nat → PollEvent)
    (lrf : Nat) : List String → Nat → Except String (List PushStep × String)
  | [], _ => .ok ([], "")
  | l :: ls, i =>
    match send_raw sock (pyRstrip l ++ "\r") with
    | .error e => .error e
    | .ok sent =>
      match pushLines sock lineEvts lrf ls (i+1) with
      | .error e => .error e
      | .ok (st, tr) =>
        .ok (.line sent LINE_PAUSE_MS :: st,
          _recv_nonblock sock (lineEvts i) lrf ++ tr)

/-- The concatenation of the per-line captures, for stating `pushLines`. -/
def lineCat (sock : Option Unit) (lineEvts : Nat → Nat → PollEvent)
    (lrf : Nat) : List String → Nat → String
  | [], _ => ""
  | _ :: ls, i => _recv_nonblock sock (lineEvts i) lrf ++
      lineCat sock lineEvts lrf ls (i+1)

/-- Event streams and budgets for the three `run_cmd` stages and the
per-line captures of one `push_config` call. -/
structure PushEnv where
  confTDrain : Nat → Nat → PollEvent
  confTPrompt : Nat → Nat → PollEvent
  lineEvts : Nat → Nat → PollEvent
  endDrain : Nat → Nat → PollEvent
  endPrompt : Nat → Nat → PollEvent
  wrDrain : Nat → Nat → PollEvent
  wrPrompt : Nat → Nat → PollEvent
  dfuel : Nat
  drf : Nat
  pfuel : Nat
  prf : Nat
  lrf : Nat

/-- `IOSConsole.push_config`: `run_cmd("conf t", 20.0)`, the line loop,
`run_cmd("end", 20.0)`, `run_cmd("wr mem", 60.0)`; the transcript is the
concatenation of every captured stage. -/
def push_config (sock : Option Unit) (env : PushEnv) (lines : List String) :
    Except String PushResult :=
  match run_command sock env.confTDrain env.confTPrompt env.dfuel env.drf
      env.pfuel env.prf "conf t" with
  | .error e => .error e
  | .ok r1 =>
    match pushLines sock env.lineEvts env.lrf lines 0 with
    | .error e => .error e
    | .ok (st, tr) =>
      match run_command sock env.endDrain env.endPrompt env.dfuel env.drf
          env.pfuel env.prf "end" with
      | .error e => .error e
      | .ok r2 =>
        match run_command sock env.wrDrain env.wrPrompt env.dfuel env.drf
            env.pfuel env.prf "wr mem" with
        | .error e => .error e
        | .ok r3 =>
          .ok { steps := .cmd r1.sent CONF_T_MAX_WAIT_MS ::
                  (st ++ [.cmd r2.sent END_MAX_WAIT_MS,
                          .cmd r3.sent WR_MEM_MAX_WAIT_MS]),
                transcript := r1.out ++ tr ++ r2.out ++ r3.out }

/-! ## Session lifecycle: `IOSConsole.close` (src/server.py 47-67) -/

/-- The attributes `IOSConsole.__init__` sets: host, port, timeout and the
socket slot (a numeric descriptor when connected). -/
structure IOSConsoleState where
  host : String
  port : Int
  timeoutMs : Nat
  sock : Option Nat
deriving DecidableEq, Repr

/-- `IOSConsole.close`: when a socket is present, release it (the returned
list is the descriptors released by this call) and clear the slot (the
`finally: self.sock = None`); otherwise do nothing. -/
def close (s : IOSConsoleState) : IOSConsoleState × List Nat :=
  match s.sock with
  | some fd => ({ s with sock := none }, [fd])
  | none => (s, [])

/-- `n` successive `close()` calls (state component only). -/
def closeIter : Nat → IOSConsoleState → IOSConsoleState
  | 0, s => s
  | n+1, s => closeIter n (close s).1

/-! ## BootNegotiator: `IOSConsole.bootstrap_ios` (src/server.py 143-199)

The negotiation is modelled at the level of what it sends and how the
`screen` buffer grows. The four `re.search` tests it performs are embedded
as boolean predicates on the screen; the successive `_drain` and
`read_until_prompt` results are given as streams (this is the device
behaviour, which is universally quantified in the claims). The
`send_and_collect` return values are discarded by the source and therefore
do not appear in the screen. -/

/-- Tag of each line `bootstrap_ios` writes to the console, in source
order: the two wake returns of `ensure_prompt`, the press-RETURN reply,
the initial-config-dialog "no", the reprompt-loop "no" and its nudge
return, the autoinstall "no" and nudge, the force-prompt return, the
`enable` command and its blank password return, and `terminal length 0`. -/
inductive BootSend where
  | wake
  | ret
  | dialogNo
  | repromptNo
  | nudge
  | autoNo
  | force
  | enable
  | enterPw
  | paging
deriving DecidableEq, Repr

/-- Device behaviour as observed by one `bootstrap_ios` call:
`ensureScreen` is the buffer `ensure_prompt` returned (line 154),
`drain i` is the result of the `i`-th `_drain` call that is appended to
the screen, `promptRead i` the result of the `i`-th `read_until_prompt`,
and the four predicates embed the `re.search` tests for the press-RETURN
banner, the initial configuration dialog question, the
please-answer-yes-or-no reprompt, and the autoconfig/autoinstall text. -/
structure BootEnv where
  ensureScreen : String
  drain : Nat → String
  promptRead : Nat → String
  pressReturnSeen : String → Bool
  dialogSeen : String → Bool
  repromptSeen : String → Bool
  autoSeen : String → Bool

/-- Result of the bounded reprompt loop: final screen, number of loop
bodies executed, and the lines sent. -/
structure RepromptOut where
  screen : String
  iters : Nat
  trace : List (BootSend × String)

namespace Boot

/-- The reprompt loop `for _ in range(8)` (src/server.py 167-175): while
fuel lasts and the reprompt or the dialog question is visible, send
`no\r` and a nudge `\r`, append the next drain to the screen; otherwise
break. `d` is the index of the next unconsumed drain. -/
def repromptLoop (env : BootEnv) : Nat → Nat → String → RepromptOut
  | 0, _, screen => { screen := screen, iters := 0, trace := [] }
  | fuel+1, d, screen =>
    if env.repromptSeen screen || env.dialogSeen screen then
      let r := repromptLoop env fuel (d+1) (screen ++ env.drain d)
      { screen := r.screen, iters := r.iters + 1,
        trace := (.repromptNo, "no\r") :: (.nudge, "\r") :: r.trace }
    else { screen := screen, iters := 0, trace := [] }

/-- The hardcoded bound of the reprompt loop (`range(8)`). -/
def REPROMPT_BOUND : Nat := 8

/-- Screen after `ensure_prompt` (line 154). -/
def screen0 (env : BootEnv) : String := env.ensureScreen

/-- Line 157: was the press-RETURN banner seen? -/
def pressTaken (env : BootEnv) : Bool := env.pressReturnSeen (screen0 env)

/-- Screen after the press-RETURN stage (lines 157-159). -/
def screen1 (env : BootEnv) : String :=
  if pressTaken env then screen0 env ++ env.drain 0 else screen0 env

/-- Number of drains consumed so far. -/
def drains1 (env : BootEnv) : Nat := if pressTaken env then 1 else 0

/-- Line 162: was the initial-config-dialog question seen? -/
def dialogTaken (env : BootEnv) : Bool := env.dialogSeen (screen1 env)

/-- Screen after the initial-dialog stage (lines 162-164). -/
def screen2 (env : BootEnv) : String :=
  if dialogTaken env then screen1 env ++ env.drain (drains1 env)
  else screen1 env

def drains2 (env : BootEnv) : Nat :=
  drains1 env + (if dialogTaken env then 1 else 0)

/-- The reprompt loop, entered with the fixed bound of 8. -/
def loopOut (env : BootEnv) : RepromptOut :=
  repromptLoop env REPROMPT_BOUND (drains2 env) (screen2 env)

def drains3 (env : BootEnv) : Nat := drains2 env + (loopOut env).iters

/-- Line 178: autoconfig / autoinstall text present? -/
def autoTaken (env : BootEnv) : Bool := env.autoSeen (loopOut env).screen

/-- Screen after the autoinstall stage (lines 178-181). -/
def screen4 (env : BootEnv) : String :=
  if autoTaken env then (loopOut env).screen ++ env.drain (drains3 env)
  else (loopOut env).screen

/-- Screen after the force-prompt stage (lines 184-185). -/
def screen5 (env : BootEnv) : String := screen4 env ++ env.promptRead 0

/-- Line 188: `">" in screen and "#" not in screen`. -/
def enableTaken (env : BootEnv) : Bool :=
  pyInStr '>' (screen5 env) && !(pyInStr '#' (screen5 env))

/-- Screen after the enable stage (lines 188-192). -/
def screen6 (env : BootEnv) : String :=
  if enableTaken env then screen5 env ++ env.promptRead 1 else screen5 env

/-- Final screen, after `terminal length 0` (lines 195-197; the
`_drain(0.3)` result on line 195 is discarded by the source). -/
def screen7 (env : BootEnv) : String := screen6 env ++ env.promptRead 2

/-- Everything `bootstrap_ios` sends, in source order. -/
def trace (env : BootEnv) : List (BootSend × String) :=
  [(.wake, "\r"), (.wake, "\r")]
  ++ (if pressTaken env then [(BootSend.ret, "\r")] else [])
  ++ (if dialogTaken env then [(BootSend.dialogNo, "no\r")] else [])
  ++ (loopOut env).trace
  ++ (if autoTaken env then
        [(BootSend.autoNo, "no\r"), (BootSend.nudge, "\r")] else [])
  ++ [(BootSend.force, "\r")]
  ++ (if enableTaken env then
        [(BootSend.enable, "enable\r"), (BootSend.enterPw, "\r")] else [])
  ++ [(BootSend.paging, "terminal length 0\r")]

end Boot

/-- `IOSConsole.bootstrap_ios`: returns the accumulated screen (for debug)
and, in this model, also the list of lines sent. -/
def bootstrap_ios (env : BootEnv) : String × List (BootSend × String) :=
  (Boot.screen7 env, Boot.trace env)

/-- Is this send a reply to the configuration-dialog / reprompt patterns
(tag `dialogNo` or `repromptNo`)? -/
def isDialogReply : BootSend × String → Bool
  | (BootSend.dialogNo, _) => true
  | (BootSend.repromptNo, _) => true
  | _ => false

/-- Number of `no` replies sent in answer to the configuration-dialog /
reprompt patterns. -/
def dialogNoCount (tr : List (BootSend × String)) : Nat :=
  tr.countP isDialogReply

/-! ## Endpoint resolution: `EveClient.get_console_endpoint`
(src/eve_api.py 364-423) and its consumption by
`eve_configure_ospf_triangle` (src/server.py 307-312) -/

/-- A JSON value as `detail.get(key)` sees it: an integer, a string, or
absent (`None`). -/
inductive PyVal where
  | vint (n : Int)
  | vstr (s : String)
  | vnone
deriving DecidableEq, Repr

/-- The fields of the node-detail answer that `get_console_endpoint`
inspects: the four direct numeric keys, the `console` key, and the
HTML5 console `url` (already defaulted to `""` as by
`(detail.get("url") or "")`). -/
structure NodeDetail where
  port : PyVal
  console_port : PyVal
  telnet_port : PyVal
  tcp_port : PyVal
  console : PyVal
  url : String
deriving DecidableEq, Repr

/-- One step of the key cascade: `isinstance(v, int)` takes the value;
a string that is all digits after stripping is parsed; anything else is
skipped. -/
def portFromVal : PyVal → Option Int
  | .vint n => some n
  | .vstr s =>
    if pyIsDigit (pyStrip s) then
      some (Int.ofNat (digitsToNat (pyStrip s).toList))
    else none
  | .vnone => none

/-- Stage 1 of the resolution: the direct keys `port`, `console_port`,
`telnet_port`, `tcp_port`, in that order. -/
def directPort (d : NodeDetail) : Option Int :=
  match portFromVal d.port with
  | some p => some p
  | none =>
    match portFromVal d.console_port with
    | some p => some p
    | none =>
      match portFromVal d.telnet_port with
      | some p => some p
      | none => portFromVal d.tcp_port

/-- Value of a base64-alphabet character. -/
def b64Val (c : Char) : Option Nat :=
  if 65 ≤ c.toNat && c.toNat ≤ 90 then some (c.toNat - 65)
  else if 97 ≤ c.toNat && c.toNat ≤ 122 then some (c.toNat - 71)
  else if 48 ≤ c.toNat && c.toNat ≤ 57 then some (c.toNat + 4)
  else if c = '+' then some 62
  else if c = '/' then some 63
  else none

/-- Characters `base64.b64decode` keeps (alphabet and padding); others are
discarded before decoding. -/
def b64Keep (c : Char) : Bool := (b64Val c).isSome || c = '='

/-- Decode one 4-character base64 group into 1, 2 or 3 bytes. -/
def b64Group (a b c d : Char) : Option (List Nat) :=
  match b64Val a, b64Val b with
  | some va, some vb =>
    if c = '=' then
      if d = '=' then some [va * 4 + vb / 16] else none
    else
      match b64Val c with
      | some vc =>
        if d = '=' then some [va * 4 + vb / 16, (vb % 16) * 16 + vc / 4]
        else
          match b64Val d with
          | some vd =>
            some [va * 4 + vb / 16, (vb % 16) * 16 + vc / 4,
                  (vc % 4) * 64 + vd]
          | none => none
      | none => none
  | _, _ => none

/-- Decode a filtered base64 character list, group by group; padding is
only legal in the final group. -/
def b64DecodeGroups : List Char → Option (List Nat)
  | [] => some []
  | a :: b :: c :: d :: rest =>
    match b64Group a b c d with
    | none => none
    | some g =>
      if c = '=' || d = '=' then
        if rest.isEmpty then some g else none
      else
        match b64DecodeGroups rest with
        | none => none
        | some r => some (g ++ r)
  | _ => none

/-- Embeds `.decode("utf-8", errors="ignore")` for byte strings in the
ASCII range (bytes outside it are dropped; the decoded console tokens are
ASCII). -/
def bytesToStringAscii (bs : List Nat) : String :=
  String.mk (bs.filterMap
    (fun b => if b < 128 then some (Char.ofNat b) else none))

/-- Embeds `base64.b64decode(token).decode("utf-8", errors="ignore")`;
`none` models the exception path the source catches (`port = None`). -/
def b64decode (s : String) : Option String :=
  let cs := s.toList.filter b64Keep
  if cs.length % 4 = 0 then (b64DecodeGroups cs).map bytesToStringAscii
  else none

/-- Characters ending the token of `re.search(r"/client/([^/?#]+)", url)`
(also the characters ending the network-location part of a URL). -/
def tokenStop (c : Char) : Bool := c = '/' || c = '?' || c = '#'

/-- Search for a nonempty `[^/?#]+` token after an occurrence of
`/client/`; on an empty token the search resumes after that occurrence,
as regex search would. Fuel is the string length, enough for every
occurrence. -/
def clientTokenAux (pat : List Char) : Nat → List Char → Option (List Char)
  | 0, _ => none
  | fuel+1, s =>
    match afterFirst s pat with
    | none => none
    | some rest =>
      let tok := rest.takeWhile (fun c => !tokenStop c)
      if tok.isEmpty then clientTokenAux pat fuel rest else some tok

/-- Embeds `re.search(r"/client/([^/?#]+)", url)` returning the captured
token. -/
def extractClientToken (url : String) : Option String :=
  (clientTokenAux "/client/".toList url.toList.length url.toList).map
    String.mk

/-- Embeds `re.match(r"(\d+)", decoded)` followed by `int(...)`. -/
def leadingDigits (s : String) : Option Int :=
  let t := s.toList.takeWhile Char.isDigit
  if t.isEmpty then none else some (Int.ofNat (digitsToNat t))

/-- Stage 3 of the resolution (src/eve_api.py 396-408): extract the
`/client/<base64>` token from the HTML5 console URL, base64-decode it and
read the leading digits as the telnet port; any failure yields `none`. -/
def urlPort (url : String) : Option Int :=
  match extractClientToken (pyStrip url) with
  | none => none
  | some token =>
    match b64decode token with
    | none => none
    | some decoded => leadingDigits decoded

/-- The full port resolution cascade of `get_console_endpoint`:
direct keys, then the `console` key, then the HTML5 URL decode. -/
def resolvePort (d : NodeDetail) : Option Int :=
  match directPort d with
  | some p => some p
  | none =>
    match portFromVal d.console with
    | some p => some p
    | none => urlPort d.url

/-- `EveClient._host_from_base_url`: default the scheme, then take the
network-location part. -/
def _host_from_base_url (base : String) : String :=
  let b := pyStrip base
  let b2 := if containsSub b.toList "://".toList then b else "http://" ++ b
  match afterFirst b2.toList "://".toList with
  | none => ""
  | some rest => String.mk (rest.takeWhile (fun c => !tokenStop c))

/-- The record `get_console_endpoint` returns. -/
structure ConsoleEndpoint where
  host : String
  port : Int
  node_id : String
  node_name : String
deriving DecidableEq, Repr

/-- `EveClient.get_console_endpoint` for a node whose detail answer is
`detail` (node lookup by name abstracted into `node_id`): resolve the
port or raise, and pair it with the host taken from the base URL. -/
def get_console_endpoint (base_url : String) (node_id node_name : String)
    (detail : NodeDetail) : Except String ConsoleEndpoint :=
  match resolvePort detail with
  | none => .error ("Console port not found for node " ++ node_name)
  | some p =>
    .ok { host := _host_from_base_url base_url, port := p,
          node_id := node_id, node_name := node_name }

/-- How `eve_configure_ospf_triangle` consumes the collaborator answer
(src/server.py 309-310): `host = endpoint["host"]`,
`port = int(endpoint["port"])` (the port is already an integer, so
`int()` is the identity). -/
def consoleTarget (ep : ConsoleEndpoint) : String × Int := (ep.host, ep.port)

/-- `IOSConsole(host, port)` as constructed on src/server.py line 312
(default timeout 12.0 seconds, no socket until `connect`). -/
def mkConsole (host : String) (port : Int) : IOSConsoleState :=
  { host := host, port := port, timeoutMs := 12000, sock := none }

/-- The console sessions `eve_configure_ospf_triangle` constructs: one per
router, at exactly the endpoint the collaborator answered for that
router. -/
def triangleConsoles (endpointOf : String → ConsoleEndpoint)
    (routers : List String) : List IOSConsoleState :=
  routers.map (fun r =>
    mkConsole (consoleTarget (endpointOf r)).1 (consoleTarget (endpointOf r)).2)

/-- One entry of the result list built on src/server.py lines 325-335. -/
structure RouterResult where
  router : String
  console : String
  boot_screen_tail : String
  config_transcript_tail : String
  show_ip_int_brief : String
  show_ip_ospf_neighbor : String
  show_ip_route_ospf : String
deriving DecidableEq, Repr

/-- The result entry for one router: the boot screen and the config
transcript are truncated to their last 900 and 1500 characters under
field names that label them as tails; the three show outputs are passed
through whole. -/
def routerResultEntry (r : String) (host : String) (port : Int)
    (bootScreen cfgTranscript ipInt ospfNei ospfRoute : String) :
    RouterResult :=
  { router := r,
    console := host ++ ":" ++ toString port,
    boot_screen_tail := pyTail 900 bootScreen,
    config_transcript_tail := pyTail 1500 cfgTranscript,
    show_ip_int_brief := ipInt,
    show_ip_ospf_neighbor := ospfNei,
    show_ip_route_ospf := ospfRoute }

/-! ## Helper lemmas -/

/-- The receive loop returns its starting buffer extended by exactly the
chunks it consumed: no received byte is dropped and nothing else is
added. -/
theorem recvLoop_eq_consumed (events : Nat → PollEvent) :
    ∀ fuel i buf,
      recvLoop events fuel i buf = buf ++ strConcat (recvConsumed events fuel i)
  | 0, _, buf => by simp [recvLoop, recvConsumed, strConcat]
  | fuel+1, i, buf => by
    simp only [recvLoop, recvConsumed]
    cases events i with
    | notReady => exact recvLoop_eq_consumed events fuel (i+1) buf
    | errRead => simp [strConcat]
    | chunk d =>
      by_cases hd : d = ""
      · simp [hd, strConcat]
      · by_cases hl : d.length < RECV_SIZE
        · simp [hd, hl, strConcat]
        · simp only [if_neg hd, if_neg hl, strConcat]
          rw [recvLoop_eq_consumed events fuel (i+1) (buf ++ d),
            String.append_assoc]

/-- The receive loop always performs at least one poll when it has any
time budget. -/
theorem recvPolls_pos (events : Nat → PollEvent) (fuel i : Nat) :
    1 ≤ recvPolls events (fuel+1) i := by
  simp only [recvPolls]
  split
  · omega
  · omega
  · split
    · omega
    · split
      · omega
      · omega

/-- A short read (a nonempty chunk below the receive buffer size) ends the
receive loop at once: the loop returns the buffer extended by that chunk
regardless of the remaining budget. -/
theorem recvLoop_short_read (events : Nat → PollEvent) (fuel i : Nat)
    (buf d : String) (he : events i = PollEvent.chunk d) (hne : d ≠ "")
    (hlt : d.length < RECV_SIZE) :
    recvLoop events (fuel+1) i buf = buf ++ d := by
  simp [recvLoop, he, hne, hlt]

/-- A peer close (empty chunk) or a read error ends the receive loop with
the buffer accumulated so far, not with a failure. -/
theorem recvLoop_stop (events : Nat → PollEvent) (fuel i : Nat)
    (buf : String) :
    (events i = PollEvent.chunk "" → recvLoop events (fuel+1) i buf = buf) ∧
    (events i = PollEvent.errRead → recvLoop events (fuel+1) i buf = buf) := by
  constructor <;> intro h <;> simp [recvLoop, h]

/-- The wait loop returns exactly the accumulation of the slices it
consumed (at most `fuel` of them), and it consumes less than its budget
only by returning a buffer the predicate matches. -/
theorem readAnyLoop_spec (p : String → Bool) (slices : Nat → String) :
    ∀ fuel i buf, ∃ k, k ≤ fuel ∧
      readAnyLoop p slices fuel i buf = sliceAccum slices i buf k ∧
      (p (readAnyLoop p slices fuel i buf) = true ∨ k = fuel)
  | 0, i, buf => ⟨0, Nat.le_refl 0, rfl, Or.inr rfl⟩
  | fuel+1, i, buf => by
    by_cases hp : p (buf ++ slices i) = true
    · refine ⟨1, by omega, ?_, ?_⟩
      · simp [readAnyLoop, hp, sliceAccum]
      · left
        simp [readAnyLoop, hp]
    · obtain ⟨k, hk, heq, hd⟩ := readAnyLoop_spec p slices fuel (i+1) (buf ++ slices i)
      refine ⟨k+1, by omega, ?_, ?_⟩
      · simpa [readAnyLoop, hp, sliceAccum] using heq
      · rcases hd with hd | hd
        · left
          simpa [readAnyLoop, hp] using hd
        · right
          omega

/-- A wait over a dead source (every slice empty) returns the empty
string. -/
theorem readAnyLoop_all_empty (p : String → Bool) (slices : Nat → String)
    (h : ∀ i, slices i = "") :
    ∀ fuel i, readAnyLoop p slices fuel i "" = ""
  | 0, _ => rfl
  | fuel+1, i => by
    simp only [readAnyLoop, h i, String.append_empty]
    by_cases hp : p "" = true
    · simp [hp]
    · simp only [Bool.not_eq_true] at hp
      simp only [hp, Bool.false_eq_true, if_false]
      exact readAnyLoop_all_empty p slices h fuel (i+1)

/-- A drain over a dead source returns the empty string. -/
theorem drainLoop_all_empty (slices : Nat → String) (h : ∀ i, slices i = "") :
    ∀ fuel i, drainLoop slices fuel i "" = ""
  | 0, _ => rfl
  | fuel+1, i => by
    simp only [drainLoop, h i, String.append_empty]
    exact drainLoop_all_empty slices h fuel (i+1)

/-- The per-line loop of `push_config` on a connected session: every line
is sent, in order, right-stripped and terminated with a carriage return,
and the captures are concatenated in the same order. -/
theorem pushLines_ok (lineEvts : Nat → Nat → PollEvent) (lrf : Nat) :
    ∀ lines i,
      pushLines (some ()) lineEvts lrf lines i =
        .ok (lines.map (fun l => PushStep.line (pyRstrip l ++ "\r") LINE_PAUSE_MS),
             lineCat (some ()) lineEvts lrf lines i)
  | [], _ => rfl
  | l :: ls, i => by
    simp only [pushLines, send_raw, pushLines_ok lineEvts lrf ls (i+1),
      List.map, lineCat]

/-- The reprompt loop executes at most as many iterations as its fuel. -/
theorem repromptLoop_iters_le (env : BootEnv) :
    ∀ fuel d s, (Boot.repromptLoop env fuel d s).iters ≤ fuel
  | 0, _, _ => Nat.le_refl 0
  | fuel+1, d, s => by
    simp only [Boot.repromptLoop]
    by_cases hc : (env.repromptSeen s || env.dialogSeen s) = true
    · simp only [hc, if_true]
      have := repromptLoop_iters_le env fuel (d+1) (s ++ env.drain d)
      omega
    · simp only [Bool.not_eq_true] at hc
      simp [hc]

/-- Each reprompt iteration sends exactly one dialog-pattern `no` reply,
and nothing else in the loop trace counts as one. -/
theorem repromptLoop_count (env : BootEnv) :
    ∀ fuel d s,
      dialogNoCount (Boot.repromptLoop env fuel d s).trace =
        (Boot.repromptLoop env fuel d s).iters
  | 0, _, _ => rfl
  | fuel+1, d, s => by
    have ih := repromptLoop_count env fuel (d+1) (s ++ env.drain d)
    simp only [Boot.repromptLoop]
    by_cases hc : (env.repromptSeen s || env.dialogSeen s) = true
    · simp only [hc, if_true]
      simp only [dialogNoCount, List.countP_cons, isDialogReply] at *
      norm_num
      omega
    · simp only [Bool.not_eq_true] at hc
      simp [hc, dialogNoCount]

/-- Every dialog-pattern reply the reprompt loop sends is the string
`no\r`. -/
theorem repromptLoop_all_no (env : BootEnv) :
    ∀ fuel d s,
      ((Boot.repromptLoop env fuel d s).trace.all
        (fun e => !isDialogReply e || e.2 == "no\r")) = true
  | 0, _, _ => rfl
  | fuel+1, d, s => by
    simp only [Boot.repromptLoop]
    by_cases hc : (env.repromptSeen s || env.dialogSeen s) = true
    · simp only [hc, if_true, List.all_cons]
      rw [repromptLoop_all_no env fuel (d+1) (s ++ env.drain d)]
      rfl
    · simp only [Bool.not_eq_true] at hc
      simp [hc]

/-- Once the socket slot is empty, further `close()` calls change
nothing. -/
theorem closeIter_closed (s : IOSConsoleState) (hs : s.sock = none) :
    ∀ n, closeIter n s = s
  | 0 => rfl
  | n+1 => by
    have h1 : (close s).1 = s := by
      simp [close, hs]
    simp only [closeIter, h1]
    exact closeIter_closed s hs n

/-! ## Claims -/

/-- C2: on a connected session, `run_cmd` first drains whatever stale
output is pending (the drain phase and its result do not influence the
returned text at all), then sends `cmd` right-stripped and terminated
with a carriage return, then waits for a shell prompt; the returned text
is exactly the prompt-wait accumulation over the post-send byte stream,
so it never contains the previous command's leftover tail. -/
theorem C2_run_cmd_drain_before_send (dEvts dEvts2 pEvts : Nat → Nat → PollEvent)
    (dfuel dfuel2 drf drf2 pfuel prf : Nat) (cmd : String) :
    run_command (some ()) dEvts pEvts dfuel drf pfuel prf cmd =
      run_command (some ()) dEvts2 pEvts dfuel2 drf2 pfuel prf cmd ∧
    ∃ res, run_command (some ()) dEvts pEvts dfuel drf pfuel prf cmd = .ok res ∧
      res.sent = pyRstrip cmd ++ "\r" ∧
      res.out = read_until_prompt (some ()) pEvts prf pfuel ∧
      ∃ k, k ≤ pfuel ∧
        res.out = sliceAccum (fun i => _recv_nonblock (some ()) (pEvts i) prf)
          0 "" k := by
  refine ⟨rfl, _, rfl, rfl, rfl, ?_⟩
  obtain ⟨k, hk, heq, _⟩ := readAnyLoop_spec promptMatch
    (fun i => _recv_nonblock (some ()) (pEvts i) prf) pfuel 0 ""
  exact ⟨k, hk, heq⟩

/-- C3: the bounded waits `read_until_any` and `read_until_prompt` always
return the accumulated buffer: the result is exactly the concatenation of
the receive slices consumed (at most the time budget), both when a
pattern matched the buffer and when the budget elapsed without a match
(`k = fuel`); the loops are total functions, so a timeout never raises
and never discards the text captured so far. -/
theorem C3_bounded_wait_returns_buffer (sock : Option Unit)
    (evts : Nat → Nat → PollEvent) (rfuel : Nat) (ps : List (String → Bool))
    (fuel : Nat) :
    (∃ k, k ≤ fuel ∧
      read_until_any sock evts rfuel ps fuel =
        sliceAccum (fun i => _recv_nonblock sock (evts i) rfuel) 0 "" k ∧
      (anyMatch ps (read_until_any sock evts rfuel ps fuel) = true ∨
        k = fuel)) ∧
    (∃ k, k ≤ fuel ∧
      read_until_prompt sock evts rfuel fuel =
        sliceAccum (fun i => _recv_nonblock sock (evts i) rfuel) 0 "" k ∧
      (promptMatch (read_until_prompt sock evts rfuel fuel) = true ∨
        k = fuel)) :=
  ⟨readAnyLoop_spec (anyMatch ps)
      (fun i => _recv_nonblock sock (evts i) rfuel) fuel 0 "",
    readAnyLoop_spec promptMatch
      (fun i => _recv_nonblock sock (evts i) rfuel) fuel 0 ""⟩

/-- C5 counterexample: the claim says a peer close during a read is
reported together with a closed flag that lets the caller distinguish it
from an idle timeout. The reader returns only a string: on a session
whose peer closes at the very first poll and on a session that stays
silent for the whole window, `_recv_nonblock` returns the identical
value, so no caller can distinguish the two. -/
theorem C5_counterexample :
    _recv_nonblock (some ()) (fun _ => PollEvent.chunk "") 4 = "" ∧
    _recv_nonblock (some ()) (fun _ => PollEvent.notReady) 4 = "" ∧
    _recv_nonblock (some ()) (fun _ => PollEvent.chunk "") 4 =
      _recv_nonblock (some ()) (fun _ => PollEvent.notReady) 4 := by
  refine ⟨by decide, by decide, by decide⟩

/-- C5 (amended): a peer close (`recv` returning an empty chunk) or a
read exception ends the receive loop with the partial buffer accumulated
so far as a normal result, never as a failure, and in general the loop
returns its buffer extended by exactly the chunks consumed; no closed
flag is exposed, so a peer-closed read is not distinguishable from an
idle timeout at the session layer. -/
theorem C5_peer_close_result (events : Nat → PollEvent) (fuel i : Nat)
    (buf : String) :
    (events i = PollEvent.chunk "" → recvLoop events (fuel+1) i buf = buf) ∧
    (events i = PollEvent.errRead → recvLoop events (fuel+1) i buf = buf) ∧
    recvLoop events fuel i buf = buf ++ strConcat (recvConsumed events fuel i) :=
  ⟨(recvLoop_stop events fuel i buf).1, (recvLoop_stop events fuel i buf).2,
    recvLoop_eq_consumed events fuel i buf⟩

theorem C5_peer_close_result_witness :
    recvLoop (fun _ => PollEvent.chunk "") 4 0 "partial" = "partial" :=
  (C5_peer_close_result (fun _ => PollEvent.chunk "") 3 0 "partial").1 rfl

/-- C6: the receive loop stops early as soon as a single poll returns a
nonempty chunk shorter than the 4096-byte receive buffer (returning the
buffer extended by that chunk, whatever budget remains); with any
positive budget it always attempts at least one poll; and it returns
exactly the bytes that arrived, possibly none, without interpreting
them. -/
theorem C6_recv_nonblock_contract (events : Nat → PollEvent) (fuel i : Nat)
    (buf d : String) :
    (events i = PollEvent.chunk d → d ≠ "" → d.length < RECV_SIZE →
      recvLoop events (fuel+1) i buf = buf ++ d) ∧
    1 ≤ recvPolls events (fuel+1) i ∧
    recvLoop events fuel i buf = buf ++ strConcat (recvConsumed events fuel i) :=
  ⟨recvLoop_short_read events fuel i buf d, recvPolls_pos events fuel i,
    recvLoop_eq_consumed events fuel i buf⟩

theorem C6_recv_nonblock_contract_witness :
    recvLoop (fun _ => PollEvent.chunk "R1#") 6 0 "" = "" ++ "R1#" :=
  (C6_recv_nonblock_contract (fun _ => PollEvent.chunk "R1#") 5 0 "" "R1#").1
    rfl (by decide) (by decide)

/-- C7: `close()` is idempotent and total over every session state: on a
connected state it releases exactly the held socket and empties the
socket slot; on a state with no socket it is a no-op; after any `close`
the slot is empty, a second `close` changes nothing and releases
nothing, and any positive number of `close` calls leaves the same state
as one. -/
theorem C7_close_idempotent (h : String) (p : Int) (t fd : Nat)
    (s : IOSConsoleState) (n : Nat) :
    close ⟨h, p, t, some fd⟩ = (⟨h, p, t, none⟩, [fd]) ∧
    close ⟨h, p, t, none⟩ = (⟨h, p, t, none⟩, []) ∧
    (close s).1.sock = none ∧
    (close (close s).1).1 = (close s).1 ∧
    (close (close s).1).2 = [] ∧
    closeIter (n+1) s = (close s).1 := by
  obtain ⟨h2, p2, t2, so⟩ := s
  refine ⟨rfl, rfl, ?_, ?_, ?_, ?_⟩
  · cases so <;> rfl
  · cases so <;> rfl
  · cases so <;> rfl
  · show closeIter n (close ⟨h2, p2, t2, so⟩).1 = (close ⟨h2, p2, t2, so⟩).1
    refine closeIter_closed _ ?_ n
    cases so <;> rfl

/-- C9: no byte received from the socket is silently dropped: the receive
loop returns its buffer extended by exactly the chunks it consumed, the
wait loop returns exactly the accumulation of the slices it consumed,
and the only truncation anywhere is the explicit one in the tool's
result entry, where the last 900 and 1500 characters are stored under
field names that label them as tails while the three show outputs are
passed through whole. -/
theorem C9_no_silent_truncation (events : Nat → PollEvent) (fuel i : Nat)
    (buf : String) (p : String → Bool) (slices : Nat → String)
    (fuel2 i2 : Nat) (r host : String) (port : Int)
    (bs cfg ipInt nei route : String) :
    recvLoop events fuel i buf = buf ++ strConcat (recvConsumed events fuel i) ∧
    (∃ k, k ≤ fuel2 ∧
      readAnyLoop p slices fuel2 i2 buf = sliceAccum slices i2 buf k) ∧
    (routerResultEntry r host port bs cfg ipInt nei route).boot_screen_tail =
      pyTail 900 bs ∧
    (routerResultEntry r host port bs cfg ipInt nei route).config_transcript_tail =
      pyTail 1500 cfg ∧
    (routerResultEntry r host port bs cfg ipInt nei route).show_ip_int_brief =
      ipInt ∧
    (routerResultEntry r host port bs cfg ipInt nei route).show_ip_ospf_neighbor =
      nei ∧
    (routerResultEntry r host port bs cfg ipInt nei route).show_ip_route_ospf =
      route := by
  obtain ⟨k, hk, heq, _⟩ := readAnyLoop_spec p slices fuel2 i2 buf
  exact ⟨recvLoop_eq_consumed events fuel i buf, ⟨k, hk, heq⟩,
    rfl, rfl, rfl, rfl, rfl⟩

/-- C10: on a session with no socket, every send path raises the fatal
`Console not connected` error (`send_raw`, and through it
`send_and_collect`, `run_cmd` and `push_config`), while every receive
path silently returns the empty string (`_recv_nonblock`, `_drain`,
`read_until_any`, `read_until_prompt`). -/
theorem C10_disconnected_semantics (s cmd : String) (evts : Nat → PollEvent)
    (evts2 dEvts pEvts : Nat → Nat → PollEvent)
    (rfuel fuel dfuel drf pfuel prf : Nat) (ps : List (String → Bool))
    (env : PushEnv) (lines : List String) :
    send_raw none s = .error "Console not connected" ∧
    send_and_collect none evts rfuel s = .error "Console not connected" ∧
    run_command none dEvts pEvts dfuel drf pfuel prf cmd =
      .error "Console not connected" ∧
    push_config none env lines = .error "Console not connected" ∧
    _recv_nonblock none evts rfuel = "" ∧
    _drain none evts2 rfuel fuel = "" ∧
    read_until_any none evts2 rfuel ps fuel = "" ∧
    read_until_prompt none evts2 rfuel fuel = "" := by
  refine ⟨rfl, rfl, rfl, rfl, rfl, ?_, ?_, ?_⟩
  · exact drainLoop_all_empty _ (fun _ => rfl) fuel 0
  · exact readAnyLoop_all_empty (anyMatch ps) _ (fun _ => rfl) fuel 0
  · exact readAnyLoop_all_empty promptMatch _ (fun _ => rfl) fuel 0

/-- C1: for every device behaviour (every screen content, drain stream
and outcome of the four pattern tests), the reprompt loop of
`bootstrap_ios` executes at most its bound of 8 iterations — the model
is structurally recursive on that bound, so the negotiator always
returns — and the whole negotiation sends at most bound+1 = 9 `no`
replies in answer to the configuration-dialog / reprompt patterns, each
of them being exactly the string `no\r`. -/
theorem C1_reprompt_bounded (env : BootEnv) (fuel d : Nat) (s : String) :
    (Boot.repromptLoop env fuel d s).iters ≤ fuel ∧
    (Boot.loopOut env).iters ≤ Boot.REPROMPT_BOUND ∧
    dialogNoCount (bootstrap_ios env).2 ≤ Boot.REPROMPT_BOUND + 1 ∧
    ((bootstrap_ios env).2.all
      (fun e => !isDialogReply e || e.2 == "no\r")) = true := by
  have hloop := repromptLoop_iters_le env Boot.REPROMPT_BOUND
    (Boot.drains2 env) (Boot.screen2 env)
  have hcount := repromptLoop_count env Boot.REPROMPT_BOUND
    (Boot.drains2 env) (Boot.screen2 env)
  have hall := repromptLoop_all_no env Boot.REPROMPT_BOUND
    (Boot.drains2 env) (Boot.screen2 env)
  simp only [dialogNoCount] at hcount
  simp only [Boot.REPROMPT_BOUND] at hloop hcount hall
  refine ⟨repromptLoop_iters_le env fuel d s, hloop, ?_, ?_⟩
  · simp only [bootstrap_ios, Boot.trace, dialogNoCount, Boot.loopOut,
      List.countP_append, Boot.REPROMPT_BOUND]
    rw [hcount]
    by_cases h1 : Boot.pressTaken env = true <;>
      by_cases h2 : Boot.dialogTaken env = true <;>
      by_cases h3 : Boot.autoTaken env = true <;>
      by_cases h4 : Boot.enableTaken env = true <;>
      simp [h1, h2, h3, h4, List.countP_cons, isDialogReply] <;>
      omega
  · simp only [bootstrap_ios, Boot.trace, List.all_append, Boot.loopOut,
      Boot.REPROMPT_BOUND]
    rw [hall]
    by_cases h1 : Boot.pressTaken env = true <;>
      by_cases h2 : Boot.dialogTaken env = true <;>
      by_cases h3 : Boot.autoTaken env = true <;>
      by_cases h4 : Boot.enableTaken env = true <;>
      simp [h1, h2, h3, h4, isDialogReply]

/-- C4: on a connected session, `push_config` sends exactly, in order:
the configuration-mode command `conf t` (waited on with its 20 s
budget), the caller's lines right-stripped and carriage-return
terminated, in the caller's order with the 150 ms inter-line pacing
sleep and no reordering, then `end`, then the persist command `wr mem`
waited on with the extended 60 s budget; and it returns the
concatenation of all captured stages as one transcript. -/
theorem C4_push_config_order (env : PushEnv) (lines : List String) :
    push_config (some ()) env lines = .ok {
      steps := PushStep.cmd "conf t\r" CONF_T_MAX_WAIT_MS ::
        (lines.map (fun l => PushStep.line (pyRstrip l ++ "\r") LINE_PAUSE_MS) ++
         [PushStep.cmd "end\r" END_MAX_WAIT_MS,
          PushStep.cmd "wr mem\r" WR_MEM_MAX_WAIT_MS]),
      transcript :=
        read_until_prompt (some ()) env.confTPrompt env.prf env.pfuel ++
        lineCat (some ()) env.lineEvts env.lrf lines 0 ++
        read_until_prompt (some ()) env.endPrompt env.prf env.pfuel ++
        read_until_prompt (some ()) env.wrPrompt env.prf env.pfuel } ∧
    CONF_T_MAX_WAIT_MS < WR_MEM_MAX_WAIT_MS ∧ 0 < LINE_PAUSE_MS := by
  refine ⟨?_, by decide, by decide⟩
  simp only [push_config, run_command, send_raw, pushLines_ok]
  rfl

/-- C8 counterexample: for a node whose detail answer carries no direct
numeric port key (the `console` key is the string `telnet`, as the
source comments describe for this EVE build), `get_console_endpoint`
derives the port by base64-decoding the `/client/<token>` segment of
the HTML5 console URL: two answers differing only in that encoded URL
yield two different ports (32770 and 40000), so the endpoint is
reconstructed from the alternate encoding, contradicting the claim. -/
theorem C8_counterexample :
    get_console_endpoint "http://10.107.126.154" "5" "R1"
      { port := .vnone, console_port := .vnone, telnet_port := .vnone,
        tcp_port := .vnone, console := .vstr "telnet",
        url := "/html5/#/client/MzI3NzA=?token=abc" } =
      .ok { host := "10.107.126.154", port := 32770,
            node_id := "5", node_name := "R1" } ∧
    get_console_endpoint "http://10.107.126.154" "5" "R1"
      { port := .vnone, console_port := .vnone, telnet_port := .vnone,
        tcp_port := .vnone, console := .vstr "telnet",
        url := "/html5/#/client/NDAwMDA=?token=abc" } =
      .ok { host := "10.107.126.154", port := 40000,
            node_id := "5", node_name := "R1" } :=
  ⟨rfl, rfl⟩

/-- C8 (amended): the configuration tool itself consumes the resolved
endpoint verbatim — the console session for each router is constructed
at exactly the host and port of the collaborator's answer for that
router, with no transformation — while the collaborator wrapper
`get_console_endpoint` prefers a direct numeric `port` key when one is
present and, when no direct key and no numeric `console` key exist,
falls back to re-deriving the port from the HTML5 console URL. -/
theorem C8_endpoint_consumption (endpointOf : String → ConsoleEndpoint)
    (routers : List String) (ep : ConsoleEndpoint) (n : Int)
    (cp tp tcpp cv : PyVal) (u : String) :
    triangleConsoles endpointOf routers =
      routers.map (fun r => mkConsole (endpointOf r).host (endpointOf r).port) ∧
    consoleTarget ep = (ep.host, ep.port) ∧
    resolvePort { port := PyVal.vint n, console_port := cp, telnet_port := tp,
                  tcp_port := tcpp, console := cv, url := u } = some n ∧
    resolvePort { port := PyVal.vnone, console_port := PyVal.vnone,
                  telnet_port := PyVal.vnone, tcp_port := PyVal.vnone,
                  console := PyVal.vnone, url := u } = urlPort u :=
  ⟨rfl, rfl, rfl, rfl⟩

end EveMcp
